import Mathlib

/-!
Shallow embedding of `d2networking/d2client/d2remoteclient/remote_client_connection.go`
(package `d2remoteclient` of OpenDiablo2).

Bytes are modelled as `Nat` values (each `< 256` where it matters) and byte
slices as `List Nat`.  External collaborators are modelled explicitly:

* gzip (`compress/gzip`) is a `GzipModel`: `compress` is the complete stream a
  `gzip.Writer` at `BestCompression` produces, and `read` is the combined
  behaviour of `gzip.NewReader` followed by `io.Copy`.  `gzip.NewReader` reads
  the 10-byte header eagerly and returns a nil reader together with an error
  when the header is invalid (in particular when the magic bytes `1f 8b` are
  missing); `GzipRead.headerErr` models that outcome.
* JSON (`encoding/json`) is a marshalling function `PData ... → Option (List Nat)`
  (`none` models a `json.Marshal` error) together with per-type unmarshalling
  functions bundled in `Unmarshalers`.
* The UDP socket is a boolean `sockOk` saying whether `udpConnection.Write`
  succeeds; address resolution and dialing are functions
  `String → Except String _`.

The packet structures of package `d2netpacket` and the tag enumeration of
`d2netpackettype` are not part of the analysed source file; they are modelled
from the specification (see the doc comments below), with arbitrary distinct
byte values for the tags.
-/

namespace D2RemoteClient

/-- Modelled from the spec: the closed packet-type enumeration of package
`d2netpackettype` (its source is not available here).  The spec fixes the set
of types but not their byte values; we assign arbitrary distinct bytes. -/
def PlayerConnectionRequest : Nat := 1

/-- Modelled from the spec: the move-player type tag. -/
def MovePlayer : Nat := 2

/-- Modelled from the spec: the update-server-info type tag. -/
def UpdateServerInfo : Nat := 3

/-- Modelled from the spec: the generate-map type tag. -/
def GenerateMap : Nat := 4

/-- Modelled from the spec: the add-player type tag. -/
def AddPlayer : Nat := 5

/-- Modelled from the spec: the ping type tag. -/
def Ping : Nat := 6

/-- Modelled from the spec: the pong type tag. -/
def Pong : Nat := 7

/-- Modelled from the spec: the disconnect-notification type tag. -/
def PlayerDisconnectionNotification : Nat := 8

/-- Modelled from the spec: the disconnect-request type tag. -/
def PlayerDisconnectRequest : Nat := 9

/-- Modelled from the spec: `d2netpacket.PongPacket`, the pong payload,
carries the sending Connection's id. -/
structure PongPacket where
  Id : String
  deriving DecidableEq

/-- Modelled from the spec: `d2netpacket.PlayerDisconnectRequestPacket`
carries the disconnecting Connection's id (the listener logs `packet.Id`). -/
structure PlayerDisconnectRequestPacket where
  Id : String
  deriving DecidableEq

/-- The dynamically typed payload (`PacketData interface\x7b\x7d` in Go).  The
concrete shapes of the game payloads (`GenerateMapPacket`, `MovePlayerPacket`,
`UpdateServerInfoPacket`, `AddPlayerPacket`) and of the player state are out
of scope per the spec, so they are type parameters `GMP MPP USP APP PS`. -/
inductive PData (GMP MPP USP APP PS : Type) where
  | generateMap : GMP → PData GMP MPP USP APP PS
  | movePlayer : MPP → PData GMP MPP USP APP PS
  | updateServerInfo : USP → PData GMP MPP USP APP PS
  | addPlayer : APP → PData GMP MPP USP APP PS
  | playerDisconnectRequest : PlayerDisconnectRequestPacket → PData GMP MPP USP APP PS
  | pong : PongPacket → PData GMP MPP USP APP PS
  | playerConnectionRequest : String → PS → PData GMP MPP USP APP PS
  deriving DecidableEq

/-- `d2netpacket.NetPacket`: a type tag (one byte) plus a payload. -/
structure NetPacket (GMP MPP USP APP PS : Type) where
  PacketType : Nat
  PacketData : PData GMP MPP USP APP PS
  deriving DecidableEq

variable {GMP MPP USP APP PS : Type}

/-- Modelled from the spec: `d2netpacket.CreatePongPacket` builds a
pong-tagged packet whose payload carries the given connection id. -/
def CreatePongPacket (id : String) : NetPacket GMP MPP USP APP PS :=
  ⟨Pong, PData.pong ⟨id⟩⟩

/-- Modelled from the spec: `d2netpacket.CreatePlayerDisconnectRequestPacket`
builds a disconnect-request packet carrying the given connection id. -/
def CreatePlayerDisconnectRequestPacket (id : String) : NetPacket GMP MPP USP APP PS :=
  ⟨PlayerDisconnectRequest, PData.playerDisconnectRequest ⟨id⟩⟩

/-- Modelled from the spec: `d2netpacket.CreatePlayerConnectionRequestPacket`
builds a connection-request packet carrying the connection id and the
caller-supplied initial game state. -/
def CreatePlayerConnectionRequestPacket (id : String) (state : PS) :
    NetPacket GMP MPP USP APP PS :=
  ⟨PlayerConnectionRequest, PData.playerConnectionRequest id state⟩

/-- Result of running `gzip.NewReader` and then `io.Copy` over a byte slice:
either the reader construction fails (invalid gzip header, nil reader
returned), or some bytes are copied out together with an optional copy
error. -/
inductive GzipRead where
  | headerErr : GzipRead
  | copied : List Nat → Option String → GzipRead
  deriving DecidableEq

/-- The gzip library, abstracted: `compress` is the full stream written by a
`gzip.Writer` (`BestCompression`) over the input, `read` the combined
`gzip.NewReader` + `io.Copy` behaviour over a byte slice. -/
structure GzipModel where
  compress : List Nat → List Nat
  read : List Nat → GzipRead

/-- Whether a byte slice begins with the gzip magic bytes `1f 8b`; a slice
that does not cannot be the start of a gzip stream, so `gzip.NewReader`
fails on it. -/
def gzipMagicOk : List Nat → Bool
  | m1 :: m2 :: _ => m1 == 31 && m2 == 139
  | _ => false

/-- A concrete gzip model used to evaluate the development on concrete
inputs: `compress` prepends the gzip magic, `read` fails exactly when the
magic is missing (as `gzip.NewReader` does on such input) and otherwise
yields the remaining bytes. -/
def gzipSpec : GzipModel where
  compress d := 31 :: 139 :: d
  read bs := if gzipMagicOk bs then .copied (bs.drop 2) none else .headerErr

/-- Outcome of `SendPacketToServer`: a `json.Marshal` failure, the
empty-body error (`written == 0`), a failed socket write of the assembled
frame, or a successful transmission of the frame. -/
inductive SendResult where
  | marshalErr : SendResult
  | emptyBody : Nat → SendResult
  | writeErr : List Nat → SendResult
  | sent : List Nat → SendResult
  deriving DecidableEq

/-- Whether a `SendPacketToServer` outcome is returned to the caller as a
non-nil error. -/
def SendResult.isError : SendResult → Bool
  | .sent _ => false
  | _ => true

/-- The frames a send outcome actually put on the wire. -/
def SendResult.transmitted : SendResult → List (List Nat)
  | .sent f => [f]
  | _ => []

/-- Shallow embedding of `SendPacketToServer`.  The Go code marshals
`packet.PacketData`, writes the tag byte into an in-memory buffer, writes the
marshalled bytes through a gzip writer (writes to a `bytes.Buffer` cannot
fail, and on success `writer.Write` returns the length of its input, so the
`written == 0` test is `data.length = 0`), closes the writer, and writes the
buffer — tag byte followed by the gzip stream — to the UDP socket. -/
def sendPacketToServer (g : GzipModel) (jm : PData GMP MPP USP APP PS → Option (List Nat))
    (sockOk : Bool) (packet : NetPacket GMP MPP USP APP PS) : SendResult :=
  match jm packet.PacketData with
  | none => .marshalErr
  | some data =>
    if data.length = 0 then .emptyBody packet.PacketType
    else
      let frame := packet.PacketType % 256 :: g.compress data
      if sockOk then .sent frame else .writeErr frame

/-- The per-type `json.Unmarshal` targets of the dispatch switch in
`serverListener`: each decodable tag is unmarshalled into its registered
structure. -/
structure Unmarshalers (GMP MPP USP APP : Type) where
  generateMap : List Nat → Option GMP
  movePlayer : List Nat → Option MPP
  updateServerInfo : List Nat → Option USP
  addPlayer : List Nat → Option APP
  disconnect : List Nat → Option PlayerDisconnectRequestPacket

/-- The codec-level decode performed by `serverListener` on a frame's bytes:
the first byte is the type tag, the remainder goes through
`gzip.NewReader` + `io.Copy`, and the decompressed bytes are unmarshalled
into the structure the dispatch switch registers for the tag.  `none` models
a frame that is dropped (or crashes the loop) before a packet is produced. -/
def decodeFrame (g : GzipModel) (ju : Unmarshalers GMP MPP USP APP)
    (frame : List Nat) : Option (Nat × PData GMP MPP USP APP PS) :=
  match frame with
  | [] => none
  | t :: body =>
    match g.read body with
    | .headerErr => none
    | .copied data _ =>
      if data.length = 0 then none
      else if t = GenerateMap then (ju.generateMap data).map (fun q => (t, PData.generateMap q))
      else if t = MovePlayer then (ju.movePlayer data).map (fun q => (t, PData.movePlayer q))
      else if t = UpdateServerInfo then (ju.updateServerInfo data).map (fun q => (t, PData.updateServerInfo q))
      else if t = AddPlayer then (ju.addPlayer data).map (fun q => (t, PData.addPlayer q))
      else if t = PlayerDisconnectionNotification then (ju.disconnect data).map (fun q => (t, PData.playerDisconnectRequest q))
      else none

/-- The `RemoteClientConnection` struct.  The client listener is a Go
interface value: `none` models the nil interface (no listener installed),
`some f` an installed listener whose `OnPacketReceived` returns the optional
error `f packet`.  The socket handle is modelled separately (`sockOk`). -/
structure RemoteClientConnection (GMP MPP USP APP PS : Type) where
  clientListener : Option (NetPacket GMP MPP USP APP PS → Option String)
  uniqueId : String
  active : Bool

/-- Result of `SendPacketToClient`: calling `OnPacketReceived` on the nil
interface dereferences nil and panics; otherwise the listener's return value
is propagated. -/
inductive ForwardResult where
  | panicked : ForwardResult
  | returned : Option String → ForwardResult
  deriving DecidableEq

/-- Shallow embedding of `SendPacketToClient`:
`return l.clientListener.OnPacketReceived(packet)`. -/
def SendPacketToClient (l : RemoteClientConnection GMP MPP USP APP PS)
    (packet : NetPacket GMP MPP USP APP PS) : ForwardResult :=
  match l.clientListener with
  | none => .panicked
  | some f => .returned (f packet)

/-- One `ReadFromUDP` outcome: a socket error, or a successfully received
datagram (its length is the `n` returned by the read). -/
inductive ReadResult where
  | readErr : String → ReadResult
  | ok : List Nat → ReadResult

/-- `ReadFromUDP(buffer)` writes the n-byte datagram at the start of the
4096-byte buffer and leaves the bytes at positions n..4095 from earlier
iterations in place. -/
def readIntoBuffer (buffer d : List Nat) : List Nat :=
  d ++ buffer.drop d.length

/-- How one receive-loop iteration ends: `cont` — the loop proceeds to its
next iteration; `panicked` — a nil dereference occurred, which kills the
goroutine and with it the whole process. -/
inductive StepOutcome where
  | cont : StepOutcome
  | panicked : StepOutcome
  deriving DecidableEq

/-- Observable effects of one receive-loop iteration. -/
structure StepResult (GMP MPP USP APP PS : Type) where
  outcome : StepOutcome
  sent : List (NetPacket GMP MPP USP APP PS)
  sentResults : List SendResult
  forwarded : List (NetPacket GMP MPP USP APP PS)
  decompressorInput : Option (List Nat)
  buffer : List Nat

/-- The dispatch switch of `serverListener` on a decoded type tag and the
decompressed bytes.  Forwardable tags unmarshal into their registered
structure (dropping the datagram on unmarshal failure) and pass the packet to
`SendPacketToClient`; ping replies with a pong packet over the socket without
forwarding; a disconnect notification is unmarshalled and logged only; any
other tag is logged as unknown. -/
def dispatchPacket (g : GzipModel) (ju : Unmarshalers GMP MPP USP APP)
    (jm : PData GMP MPP USP APP PS → Option (List Nat)) (sockOk : Bool)
    (l : RemoteClientConnection GMP MPP USP APP PS)
    (din : Option (List Nat)) (buf : List Nat) (t : Nat) (data : List Nat) :
    StepResult GMP MPP USP APP PS :=
  if t = GenerateMap then
    match ju.generateMap data with
    | none => ⟨.cont, [], [], [], din, buf⟩
    | some q =>
      let pkt : NetPacket GMP MPP USP APP PS := ⟨t, PData.generateMap q⟩
      match SendPacketToClient l pkt with
      | .panicked => ⟨.panicked, [], [], [pkt], din, buf⟩
      | .returned _ => ⟨.cont, [], [], [pkt], din, buf⟩
  else if t = MovePlayer then
    match ju.movePlayer data with
    | none => ⟨.cont, [], [], [], din, buf⟩
    | some q =>
      let pkt : NetPacket GMP MPP USP APP PS := ⟨t, PData.movePlayer q⟩
      match SendPacketToClient l pkt with
      | .panicked => ⟨.panicked, [], [], [pkt], din, buf⟩
      | .returned _ => ⟨.cont, [], [], [pkt], din, buf⟩
  else if t = UpdateServerInfo then
    match ju.updateServerInfo data with
    | none => ⟨.cont, [], [], [], din, buf⟩
    | some q =>
      let pkt : NetPacket GMP MPP USP APP PS := ⟨t, PData.updateServerInfo q⟩
      match SendPacketToClient l pkt with
      | .panicked => ⟨.panicked, [], [], [pkt], din, buf⟩
      | .returned _ => ⟨.cont, [], [], [pkt], din, buf⟩
  else if t = AddPlayer then
    match ju.addPlayer data with
    | none => ⟨.cont, [], [], [], din, buf⟩
    | some q =>
      let pkt : NetPacket GMP MPP USP APP PS := ⟨t, PData.addPlayer q⟩
      match SendPacketToClient l pkt with
      | .panicked => ⟨.panicked, [], [], [pkt], din, buf⟩
      | .returned _ => ⟨.cont, [], [], [pkt], din, buf⟩
  else if t = Ping then
    let pkt : NetPacket GMP MPP USP APP PS := CreatePongPacket l.uniqueId
    ⟨.cont, [pkt], [sendPacketToServer g jm sockOk pkt], [], din, buf⟩
  else if t = PlayerDisconnectionNotification then
    ⟨.cont, [], [], [], din, buf⟩
  else
    ⟨.cont, [], [], [], din, buf⟩

/-- One iteration of the `serverListener` while-loop.  A read error is
printed and the iteration ends (`continue`); so does a read of zero bytes.
Otherwise the *whole* 4096-byte buffer (not just the datagram) is wrapped in
a `bytes.Buffer`; its first byte is the type tag, and the remainder is handed
to `gzip.NewReader`.  The error returned by `gzip.NewReader` is discarded: on
header failure the reader is nil, and the unconditional `io.Copy` then
dereferences nil — the iteration panics.  A copy error with some bytes copied
is only logged (the `continue` is commented out in the source); zero copied
bytes drop the datagram; otherwise the tag is dispatched. -/
def serverListenerStep (g : GzipModel) (ju : Unmarshalers GMP MPP USP APP)
    (jm : PData GMP MPP USP APP PS → Option (List Nat)) (sockOk : Bool)
    (l : RemoteClientConnection GMP MPP USP APP PS)
    (buffer : List Nat) : ReadResult → StepResult GMP MPP USP APP PS
  | .readErr _ => ⟨.cont, [], [], [], none, buffer⟩
  | .ok d =>
    if d.length = 0 then ⟨.cont, [], [], [], none, readIntoBuffer buffer d⟩
    else
      match readIntoBuffer buffer d with
      | [] => ⟨.cont, [], [], [], none, readIntoBuffer buffer d⟩
      | packetTypeId :: rest =>
        match g.read rest with
        | .headerErr => ⟨.panicked, [], [], [], some rest, packetTypeId :: rest⟩
        | .copied data _ =>
          if data.length = 0 then ⟨.cont, [], [], [], some rest, packetTypeId :: rest⟩
          else dispatchPacket g ju jm sockOk l (some rest) (packetTypeId :: rest) packetTypeId data

/-- Run the receive loop over a finite trace of read results, threading the
buffer.  The loop stops when the connection is no longer active; a panicking
iteration kills the loop (and the process): no further read is processed.
Returns the iteration results and whether the loop crashed. -/
def serverListenerRun (g : GzipModel) (ju : Unmarshalers GMP MPP USP APP)
    (jm : PData GMP MPP USP APP PS → Option (List Nat)) (sockOk : Bool)
    (l : RemoteClientConnection GMP MPP USP APP PS)
    (buffer : List Nat) : List ReadResult → List (StepResult GMP MPP USP APP PS) × Bool
  | [] => ([], false)
  | r :: rs =>
    if l.active then
      let st := serverListenerStep g ju jm sockOk l buffer r
      match st.outcome with
      | .panicked => ([st], true)
      | .cont =>
        let (sts, crashed) := serverListenerRun g ju jm sockOk l st.buffer rs
        (st :: sts, crashed)
    else ([], false)

/-- The error values `Open` and `Close` can return. -/
inductive GoError where
  | resolveErr : String → GoError
  | dialErr : String → GoError
  | sendErr : SendResult → GoError
  deriving DecidableEq

/-- Observable outcome of `Open`. -/
structure OpenOutcome (GMP MPP USP APP PS : Type) where
  conn : RemoteClientConnection GMP MPP USP APP PS
  retErr : Option GoError
  loopStarted : Bool
  resolvedAddress : Option String
  submitted : List (NetPacket GMP MPP USP APP PS)

/-- The address normalization at the top of `Open`:
`if !strings.Contains(connectionString, ":") \x7b connectionString += ":6669" \x7d`
(`strings.Contains` with the one-character needle ":" is containment of the
colon character). -/
def normalizeAddress (s : String) : String :=
  if s.toList.contains ':' then s else s ++ ":6669"

/-- Shallow embedding of `Open`.  The connection string is normalized, the
address resolved (`net.ResolveUDPAddr`) and dialed (`net.DialUDP`); either
failure is returned immediately with the connection untouched.  On success
the active flag is set, the receive loop goroutine is started, and a
connection-request packet carrying the id and the loaded player state is
sent; a send failure is returned to the caller, but the flag stays set and
the loop keeps running. -/
def Open (resolve : String → Except String String) (dial : String → Except String Unit)
    (g : GzipModel) (jm : PData GMP MPP USP APP PS → Option (List Nat)) (sockOk : Bool)
    (loadPlayerState : String → PS)
    (l : RemoteClientConnection GMP MPP USP APP PS)
    (connectionString saveFilePath : String) : OpenOutcome GMP MPP USP APP PS :=
  let cs := normalizeAddress connectionString
  match resolve cs with
  | .error e => ⟨l, some (.resolveErr e), false, some cs, []⟩
  | .ok addr =>
    match dial addr with
    | .error e => ⟨l, some (.dialErr e), false, some cs, []⟩
    | .ok _ =>
      let l1 := { l with active := true }
      let gameState := loadPlayerState saveFilePath
      let pkt := CreatePlayerConnectionRequestPacket l1.uniqueId gameState
      let r := sendPacketToServer g jm sockOk pkt
      ⟨l1, if r.isError then some (.sendErr r) else none, true, some cs, [pkt]⟩

/-- Observable outcome of `Close`. -/
structure CloseOutcome (GMP MPP USP APP PS : Type) where
  conn : RemoteClientConnection GMP MPP USP APP PS
  retErr : Option GoError
  submitted : List (NetPacket GMP MPP USP APP PS)

/-- Shallow embedding of `Close`: set the active flag to false, then submit
one disconnect-request packet carrying the connection's id; a send failure is
returned to the caller (the flag stays false). -/
def Close (g : GzipModel) (jm : PData GMP MPP USP APP PS → Option (List Nat)) (sockOk : Bool)
    (l : RemoteClientConnection GMP MPP USP APP PS) : CloseOutcome GMP MPP USP APP PS :=
  let l1 := { l with active := false }
  let pkt := CreatePlayerDisconnectRequestPacket l.uniqueId
  let r := sendPacketToServer g jm sockOk pkt
  ⟨l1, if r.isError then some (.sendErr r) else none, [pkt]⟩

/-- Modelled from the spec: whether a connection string specifies a port, per
the transport's address grammar — a bracketed host `[host]:port` or an
unbracketed `host:port` with a single colon and a nonempty port. -/
def specifiesPort (s : String) : Bool :=
  match s.toList with
  | '[' :: rest =>
    match rest.dropWhile (fun c => c ≠ ']') with
    | ']' :: ':' :: p => !p.isEmpty
    | _ => false
  | cs => (cs.count ':') == 1 && !(cs.getLast? == some ':')

/-- A string as its character codes, used by the concrete JSON model below. -/
def strBytes (s : String) : List Nat := s.toList.map Char.toNat

/-- A concrete JSON marshalling model (payload types instantiated at `Nat`)
used to evaluate the development on concrete inputs. -/
def jmW : PData Nat Nat Nat Nat Nat → Option (List Nat)
  | .generateMap q => some [q]
  | .movePlayer q => some [q]
  | .updateServerInfo q => some [q]
  | .addPlayer q => some [q]
  | .playerDisconnectRequest p => some (0 :: strBytes p.Id)
  | .pong p => some (1 :: strBytes p.Id)
  | .playerConnectionRequest id st => some (2 :: (strBytes id ++ [st]))

/-- A concrete unmarshalling model matching `jmW` on the game payloads. -/
def juW : Unmarshalers Nat Nat Nat Nat where
  generateMap := fun d => match d with | [q] => some q | _ => none
  movePlayer := fun d => match d with | [q] => some q | _ => none
  updateServerInfo := fun d => match d with | [q] => some q | _ => none
  addPlayer := fun d => match d with | [q] => some q | _ => none
  disconnect := fun _ => none

/-- A degenerate marshalling model whose serializations are all empty. -/
def jmEmpty : PData Nat Nat Nat Nat Nat → Option (List Nat) := fun _ => some []

/-- A concrete connection with no installed listener, used to evaluate the
receive loop on concrete inputs. -/
def lNil : RemoteClientConnection Nat Nat Nat Nat Nat := ⟨none, "id", true⟩

/-- A concrete connection that has not been opened yet. -/
def lInert : RemoteClientConnection Nat Nat Nat Nat Nat := ⟨none, "id0", false⟩

/-- A concrete player-state loader. -/
def loadW : String → Nat := fun _ => 0

/-- A resolver that succeeds on every address. -/
def resolveOkW : String → Except String String := fun s => .ok s

/-- A dialer that succeeds on every address. -/
def dialOkW : String → Except String Unit := fun _ => .ok ()

/-- A resolver that fails on every address. -/
def resolveBadW : String → Except String String := fun _ => .error "no such host"

/-- A dialer that fails on every address. -/
def dialBadW : String → Except String Unit := fun _ => .error "network unreachable"

/-- The tag `t` has a registered structure in the dispatch switch, `pd` is a
payload of that shape, and the switch's unmarshaller recovers it from the
bytes `d`. -/
def unmarshalsTo (ju : Unmarshalers GMP MPP USP APP) (t : Nat)
    (pd : PData GMP MPP USP APP PS) (d : List Nat) : Prop :=
  (t = GenerateMap ∧ ∃ q, pd = PData.generateMap q ∧ ju.generateMap d = some q) ∨
  (t = MovePlayer ∧ ∃ q, pd = PData.movePlayer q ∧ ju.movePlayer d = some q) ∨
  (t = UpdateServerInfo ∧ ∃ q, pd = PData.updateServerInfo q ∧ ju.updateServerInfo d = some q) ∨
  (t = AddPlayer ∧ ∃ q, pd = PData.addPlayer q ∧ ju.addPlayer d = some q) ∨
  (t = PlayerDisconnectionNotification ∧ ∃ q, pd = PData.playerDisconnectRequest q ∧ ju.disconnect d = some q)

/-- `dispatchPacket` never changes the buffer it is handed. -/
theorem dispatchPacket_buffer (g : GzipModel) (ju : Unmarshalers GMP MPP USP APP)
    (jm : PData GMP MPP USP APP PS → Option (List Nat)) (sockOk : Bool)
    (l : RemoteClientConnection GMP MPP USP APP PS)
    (din : Option (List Nat)) (buf : List Nat) (t : Nat) (data : List Nat) :
    (dispatchPacket g ju jm sockOk l din buf t data).buffer = buf := by
  unfold dispatchPacket
  dsimp only
  repeat' split
  all_goals rfl

/-- `dispatchPacket` reports exactly the decompressor input it is handed. -/
theorem dispatchPacket_decompressorInput (g : GzipModel) (ju : Unmarshalers GMP MPP USP APP)
    (jm : PData GMP MPP USP APP PS → Option (List Nat)) (sockOk : Bool)
    (l : RemoteClientConnection GMP MPP USP APP PS)
    (din : Option (List Nat)) (buf : List Nat) (t : Nat) (data : List Nat) :
    (dispatchPacket g ju jm sockOk l din buf t data).decompressorInput = din := by
  unfold dispatchPacket
  dsimp only
  repeat' split
  all_goals rfl

/-- A receive-loop iteration that gets past the gzip stage reduces to the
dispatch switch on the tag byte of the refilled buffer. -/
theorem serverListenerStep_dispatch (g : GzipModel) (ju : Unmarshalers GMP MPP USP APP)
    (jm : PData GMP MPP USP APP PS → Option (List Nat)) (sockOk : Bool)
    (l : RemoteClientConnection GMP MPP USP APP PS)
    (buffer d rest data : List Nat) (t : Nat) (ce : Option String)
    (hd0 : d ≠ []) (hbuf : readIntoBuffer buffer d = t :: rest)
    (hread : g.read rest = .copied data ce) (hdata : data ≠ []) :
    serverListenerStep g ju jm sockOk l buffer (.ok d) =
      dispatchPacket g ju jm sockOk l (some rest) (t :: rest) t data := by
  have hdl : ¬ d.length = 0 := by simpa [List.length_eq_zero] using hd0
  have hdt : ¬ data.length = 0 := by simpa [List.length_eq_zero] using hdata
  unfold serverListenerStep
  simp only [if_neg hdl, hbuf, hread, if_neg hdt]

/-- C4: after every call to `Close()`, whether the disconnect send succeeds
or returns an error, the active flag is false upon return, and exactly one
disconnect-request packet carrying this Connection's unique id has been
submitted for transmission. -/
theorem c4_close_disconnect (g : GzipModel)
    (jm : PData GMP MPP USP APP PS → Option (List Nat)) (sockOk : Bool)
    (l : RemoteClientConnection GMP MPP USP APP PS) :
    (Close g jm sockOk l).conn.active = false ∧
    (Close g jm sockOk l).submitted = [CreatePlayerDisconnectRequestPacket l.uniqueId] ∧
    (CreatePlayerDisconnectRequestPacket l.uniqueId :
        NetPacket GMP MPP USP APP PS).PacketData =
      PData.playerDisconnectRequest ⟨l.uniqueId⟩ :=
  ⟨rfl, rfl, rfl⟩

/-- C3 (amended): `SendPacketToServer` returns the empty-serialization error
exactly when the JSON serialization of the payload — the input to the gzip
writer, not the compressed body — has zero length, and in that case nothing
is transmitted. -/
theorem c3_empty_serialization (g : GzipModel)
    (jm : PData GMP MPP USP APP PS → Option (List Nat)) (sockOk : Bool)
    (p : NetPacket GMP MPP USP APP PS) (d : List Nat)
    (hm : jm p.PacketData = some d) :
    (sendPacketToServer g jm sockOk p = .emptyBody p.PacketType ↔ d = []) ∧
    (d = [] → (sendPacketToServer g jm sockOk p).transmitted = []) := by
  rcases d with _ | ⟨a, as⟩
  · simp [sendPacketToServer, hm, SendResult.transmitted]
  · constructor
    · simp only [sendPacketToServer, hm]
      constructor
      · intro h
        simp only [List.length_cons] at h
        rw [if_neg (by simp)] at h
        split at h <;> simp_all
      · intro h
        exact absurd h (by simp)
    · intro h
      exact absurd h (by simp)

/-- C3 counterexample: a payload whose serialization is empty makes the send
fail with the empty-serialization error even though the compressed body of
its frame (the gzip stream over the empty input, which always carries the
gzip framing bytes) has nonzero length — so the error is not triggered
"exactly when the compressed body has zero length". -/
theorem c3_counterexample :
    sendPacketToServer gzipSpec jmEmpty true
        (⟨Pong, PData.pong ⟨""⟩⟩ : NetPacket Nat Nat Nat Nat Nat) =
      .emptyBody Pong ∧
    (gzipSpec.compress []).length ≠ 0 :=
  ⟨rfl, by decide⟩

/-- C3 witness: the amended equivalence evaluated at a concrete packet whose
serialization is nonempty. -/
theorem c3_witness :
    ((sendPacketToServer gzipSpec jmW true
          (⟨Pong, PData.pong ⟨"x"⟩⟩ : NetPacket Nat Nat Nat Nat Nat) =
        .emptyBody Pong ↔ ([1, 120] : List Nat) = []) ∧
      (([1, 120] : List Nat) = [] →
        (sendPacketToServer gzipSpec jmW true
            (⟨Pong, PData.pong ⟨"x"⟩⟩ : NetPacket Nat Nat Nat Nat Nat)).transmitted = [])) :=
  c3_empty_serialization gzipSpec jmW true ⟨Pong, PData.pong ⟨"x"⟩⟩ [1, 120] rfl

/-- C2: for every packet type with a registered structure in the dispatch
switch and every payload of that shape, decoding the frame produced by
encoding — gzip-decompressing the bytes after the type-tag byte and
unmarshalling them into the registered structure — yields exactly the
original tag and payload. -/
theorem c2_roundtrip (g : GzipModel) (ju : Unmarshalers GMP MPP USP APP)
    (jm : PData GMP MPP USP APP PS → Option (List Nat))
    (t : Nat) (pd : PData GMP MPP USP APP PS) (d : List Nat)
    (hgz : g.read (g.compress d) = .copied d none)
    (hm : jm pd = some d) (hd : d ≠ [])
    (hu : unmarshalsTo ju t pd d) :
    sendPacketToServer g jm true (⟨t, pd⟩ : NetPacket GMP MPP USP APP PS) =
      .sent (t :: g.compress d) ∧
    decodeFrame g ju (t :: g.compress d) = some (t, pd) := by
  have hdl : ¬ d.length = 0 := by simpa [List.length_eq_zero] using hd
  rcases hu with ⟨ht, q, hpd, hq⟩ | ⟨ht, q, hpd, hq⟩ | ⟨ht, q, hpd, hq⟩ |
    ⟨ht, q, hpd, hq⟩ | ⟨ht, q, hpd, hq⟩ <;> subst ht <;> subst hpd <;>
    refine ⟨?_, ?_⟩ <;>
    simp [sendPacketToServer, decodeFrame, hm, hgz, hdl, hq,
      GenerateMap, MovePlayer, UpdateServerInfo, AddPlayer,
      PlayerDisconnectionNotification]

/-- C2 witness: the round trip evaluated at a concrete generate-map packet. -/
theorem c2_witness :
    sendPacketToServer gzipSpec jmW true
        (⟨GenerateMap, PData.generateMap 5⟩ : NetPacket Nat Nat Nat Nat Nat) =
      .sent (GenerateMap :: gzipSpec.compress [5]) ∧
    (decodeFrame gzipSpec juW (GenerateMap :: gzipSpec.compress [5]) :
        Option (Nat × PData Nat Nat Nat Nat Nat)) =
      some (GenerateMap, PData.generateMap 5) :=
  c2_roundtrip gzipSpec juW jmW GenerateMap (PData.generateMap 5) [5]
    (by decide) rfl (by decide) (Or.inl ⟨rfl, 5, rfl, rfl⟩)

/-- `Open` always hands the normalized connection string to address
resolution, whatever the resolver, dialer and send do. -/
theorem open_resolvedAddress (resolve : String → Except String String)
    (dial : String → Except String Unit) (g : GzipModel)
    (jm : PData GMP MPP USP APP PS → Option (List Nat)) (sockOk : Bool)
    (loadPlayerState : String → PS) (l : RemoteClientConnection GMP MPP USP APP PS)
    (cs sp : String) :
    (Open resolve dial g jm sockOk loadPlayerState l cs sp).resolvedAddress =
      some (normalizeAddress cs) := by
  unfold Open
  rcases hres : resolve (normalizeAddress cs) with e | addr
  · simp [hres]
  · rcases hdial : dial addr with e | u <;> simp [hres, hdial]

/-- C5: if resolution and dialing succeed but sending the initial
connection-request packet fails, `Open` returns that send error to the
caller while the active flag is true and the receive loop has been started. -/
theorem c5_open_send_failure (resolve : String → Except String String)
    (dial : String → Except String Unit) (g : GzipModel)
    (jm : PData GMP MPP USP APP PS → Option (List Nat)) (sockOk : Bool)
    (loadPlayerState : String → PS) (l : RemoteClientConnection GMP MPP USP APP PS)
    (cs sp addr : String)
    (hres : resolve (normalizeAddress cs) = .ok addr)
    (hdial : dial addr = .ok ())
    (hfail : (sendPacketToServer g jm sockOk
        (CreatePlayerConnectionRequestPacket l.uniqueId (loadPlayerState sp) :
          NetPacket GMP MPP USP APP PS)).isError = true) :
    (Open resolve dial g jm sockOk loadPlayerState l cs sp).retErr =
      some (.sendErr (sendPacketToServer g jm sockOk
        (CreatePlayerConnectionRequestPacket l.uniqueId (loadPlayerState sp)))) ∧
    (Open resolve dial g jm sockOk loadPlayerState l cs sp).conn.active = true ∧
    (Open resolve dial g jm sockOk loadPlayerState l cs sp).loopStarted = true := by
  unfold Open
  simp [hres, hdial, hfail]

/-- C6: when address resolution or dialing fails, `Open` returns the error
immediately, the connection object is untouched (so the active flag stays
false), no receive loop is started, and nothing is submitted. -/
theorem c6_open_resolve_dial_failure (resolve : String → Except String String)
    (dial : String → Except String Unit) (g : GzipModel)
    (jm : PData GMP MPP USP APP PS → Option (List Nat)) (sockOk : Bool)
    (loadPlayerState : String → PS) (l : RemoteClientConnection GMP MPP USP APP PS)
    (cs sp : String)
    (hact : l.active = false)
    (hfail : (∃ e, resolve (normalizeAddress cs) = .error e) ∨
      (∃ addr e, resolve (normalizeAddress cs) = .ok addr ∧ dial addr = .error e)) :
    (Open resolve dial g jm sockOk loadPlayerState l cs sp).retErr.isSome = true ∧
    (Open resolve dial g jm sockOk loadPlayerState l cs sp).conn = l ∧
    (Open resolve dial g jm sockOk loadPlayerState l cs sp).conn.active = false ∧
    (Open resolve dial g jm sockOk loadPlayerState l cs sp).loopStarted = false ∧
    (Open resolve dial g jm sockOk loadPlayerState l cs sp).submitted = [] := by
  rcases hfail with ⟨e, hres⟩ | ⟨addr, e, hres, hdial⟩
  · unfold Open
    simp [hres, hact]
  · unfold Open
    simp [hres, hdial, hact]

/-- C7 (amended): for every connection string, the address handed to UDP
resolution is the input with ":6669" appended when the input contains no
colon character, and the unmodified input otherwise. -/
theorem c7_normalization (resolve : String → Except String String)
    (dial : String → Except String Unit) (g : GzipModel)
    (jm : PData GMP MPP USP APP PS → Option (List Nat)) (sockOk : Bool)
    (loadPlayerState : String → PS) (l : RemoteClientConnection GMP MPP USP APP PS)
    (cs sp : String) :
    (cs.toList.contains ':' = false →
      (Open resolve dial g jm sockOk loadPlayerState l cs sp).resolvedAddress =
        some (cs ++ ":6669")) ∧
    (cs.toList.contains ':' = true →
      (Open resolve dial g jm sockOk loadPlayerState l cs sp).resolvedAddress =
        some cs) := by
  constructor <;> intro h <;>
    rw [open_resolvedAddress resolve dial g jm sockOk loadPlayerState l cs sp] <;>
    simp at h <;> simp [normalizeAddress, h]

/-- C7 witness: a portless, colon-free connection string gets the default
port appended. -/
theorem c7_witness :
    (Open resolveOkW dialOkW gzipSpec jmW true loadW lInert "localhost" "save").resolvedAddress =
      some "localhost:6669" :=
  (c7_normalization resolveOkW dialOkW gzipSpec jmW true loadW lInert
    "localhost" "save").1 (by decide)

/-- C7 counterexample: the bracketed address `[::1]` specifies no port, yet
because it contains a colon the code resolves it unmodified instead of
appending ":6669" — so "appended when the input specifies no port" fails. -/
theorem c7_counterexample :
    specifiesPort "[::1]" = false ∧
    (Open resolveOkW dialOkW gzipSpec jmW true loadW lInert "[::1]" "save").resolvedAddress =
      some "[::1]" ∧
    some "[::1]" ≠ some ("[::1]" ++ ":6669") := by
  refine ⟨by decide, ?_, by decide⟩
  rw [open_resolvedAddress]
  decide

/-- C5 witness: the send-failure path of `Open` evaluated with a dialer that
succeeds and a socket whose write fails. -/
theorem c5_witness :
    (Open resolveOkW dialOkW gzipSpec jmW false loadW lInert "localhost" "save").retErr =
      some (.sendErr (sendPacketToServer gzipSpec jmW false
        (CreatePlayerConnectionRequestPacket lInert.uniqueId (loadW "save")))) ∧
    (Open resolveOkW dialOkW gzipSpec jmW false loadW lInert "localhost" "save").conn.active = true ∧
    (Open resolveOkW dialOkW gzipSpec jmW false loadW lInert "localhost" "save").loopStarted = true :=
  c5_open_send_failure resolveOkW dialOkW gzipSpec jmW false loadW lInert
    "localhost" "save" "localhost:6669" rfl rfl (by decide)

/-- C6 witness: the spec's own example address, with a resolver that rejects
it. -/
theorem c6_witness :
    (Open resolveBadW dialOkW gzipSpec jmW true loadW lInert "256.256.256.256:1" "save").retErr.isSome = true ∧
    (Open resolveBadW dialOkW gzipSpec jmW true loadW lInert "256.256.256.256:1" "save").conn = lInert ∧
    (Open resolveBadW dialOkW gzipSpec jmW true loadW lInert "256.256.256.256:1" "save").conn.active = false ∧
    (Open resolveBadW dialOkW gzipSpec jmW true loadW lInert "256.256.256.256:1" "save").loopStarted = false ∧
    (Open resolveBadW dialOkW gzipSpec jmW true loadW lInert "256.256.256.256:1" "save").submitted = [] :=
  c6_open_resolve_dial_failure resolveBadW dialOkW gzipSpec jmW true loadW lInert
    "256.256.256.256:1" "save" rfl (Or.inl ⟨"no such host", rfl⟩)

/-- C8: when the receive loop of an active connection processes a ping
frame, exactly one pong packet — tagged pong and carrying this connection's
unique id — is passed to `SendPacketToServer` and put on the wire, and the
client listener is never invoked for that frame. -/
theorem c8_ping_pong (g : GzipModel) (ju : Unmarshalers GMP MPP USP APP)
    (jm : PData GMP MPP USP APP PS → Option (List Nat))
    (l : RemoteClientConnection GMP MPP USP APP PS)
    (buffer d rest data dd : List Nat) (ce : Option String)
    (_hact : l.active = true)
    (hd0 : d ≠ [])
    (hbuf : readIntoBuffer buffer d = Ping :: rest)
    (hread : g.read rest = .copied data ce)
    (hdata : data ≠ [])
    (hjm : jm (PData.pong ⟨l.uniqueId⟩) = some dd)
    (hdd : dd ≠ []) :
    (serverListenerStep g ju jm true l buffer (.ok d)).sent =
      [CreatePongPacket l.uniqueId] ∧
    (serverListenerStep g ju jm true l buffer (.ok d)).forwarded = [] ∧
    (serverListenerStep g ju jm true l buffer (.ok d)).sentResults =
      [SendResult.sent (Pong :: g.compress dd)] ∧
    (CreatePongPacket l.uniqueId : NetPacket GMP MPP USP APP PS).PacketType = Pong ∧
    (CreatePongPacket l.uniqueId : NetPacket GMP MPP USP APP PS).PacketData =
      PData.pong ⟨l.uniqueId⟩ := by
  have hdd' : ¬ dd.length = 0 := by simpa [List.length_eq_zero] using hdd
  rw [serverListenerStep_dispatch g ju jm true l buffer d rest data Ping ce
    hd0 hbuf hread hdata]
  unfold dispatchPacket
  refine ⟨?_, ?_, ?_, rfl, rfl⟩ <;>
    simp [GenerateMap, MovePlayer, UpdateServerInfo, AddPlayer, Ping, Pong,
      PlayerDisconnectionNotification, CreatePongPacket, sendPacketToServer,
      hjm, hdd']

/-- C8 witness: a concrete ping datagram processed with a listener-free
active connection. -/
theorem c8_witness :
    (serverListenerStep gzipSpec juW jmW true lNil [0, 0, 0, 0]
        (.ok [6, 31, 139, 9])).sent = [CreatePongPacket lNil.uniqueId] ∧
    (serverListenerStep gzipSpec juW jmW true lNil [0, 0, 0, 0]
        (.ok [6, 31, 139, 9])).forwarded = [] ∧
    (serverListenerStep gzipSpec juW jmW true lNil [0, 0, 0, 0]
        (.ok [6, 31, 139, 9])).sentResults =
      [SendResult.sent (Pong :: gzipSpec.compress [1, 105, 100])] ∧
    (CreatePongPacket lNil.uniqueId : NetPacket Nat Nat Nat Nat Nat).PacketType = Pong ∧
    (CreatePongPacket lNil.uniqueId : NetPacket Nat Nat Nat Nat Nat).PacketData =
      PData.pong ⟨lNil.uniqueId⟩ :=
  c8_ping_pong gzipSpec juW jmW lNil [0, 0, 0, 0] [6, 31, 139, 9] [31, 139, 9]
    [9] [1, 105, 100] none rfl (by decide) (by decide) (by decide) (by decide)
    (by decide) (by decide)

/-- C9: with no listener installed (`clientListener` is the nil interface),
handling a successfully decoded forwardable packet calls
`OnPacketReceived` on nil — the iteration ends in a nil-dereference panic
rather than an error return. -/
theorem c9_nil_listener (g : GzipModel) (ju : Unmarshalers GMP MPP USP APP)
    (jm : PData GMP MPP USP APP PS → Option (List Nat)) (sockOk : Bool)
    (l : RemoteClientConnection GMP MPP USP APP PS)
    (buffer d rest data : List Nat) (t : Nat) (ce : Option String)
    (hnil : l.clientListener = none)
    (hd0 : d ≠ [])
    (hbuf : readIntoBuffer buffer d = t :: rest)
    (hread : g.read rest = .copied data ce)
    (hdata : data ≠ [])
    (hfwd : (t = GenerateMap ∧ (ju.generateMap data).isSome = true) ∨
      (t = MovePlayer ∧ (ju.movePlayer data).isSome = true) ∨
      (t = UpdateServerInfo ∧ (ju.updateServerInfo data).isSome = true) ∨
      (t = AddPlayer ∧ (ju.addPlayer data).isSome = true)) :
    (serverListenerStep g ju jm sockOk l buffer (.ok d)).outcome = .panicked := by
  rw [serverListenerStep_dispatch g ju jm sockOk l buffer d rest data t ce
    hd0 hbuf hread hdata]
  unfold dispatchPacket
  rcases hfwd with ⟨ht, hq⟩ | ⟨ht, hq⟩ | ⟨ht, hq⟩ | ⟨ht, hq⟩ <;> subst ht <;>
    obtain ⟨q, hq'⟩ := Option.isSome_iff_exists.mp hq <;>
    simp [GenerateMap, MovePlayer, UpdateServerInfo, AddPlayer,
      SendPacketToClient, hnil, hq']

/-- C9 witness: a concrete generate-map datagram handled by a connection
with no installed listener panics. -/
theorem c9_witness :
    (serverListenerStep gzipSpec juW jmW true lNil [0, 0, 0, 0]
        (.ok [4, 31, 139, 5])).outcome = .panicked :=
  c9_nil_listener gzipSpec juW jmW true lNil [0, 0, 0, 0] [4, 31, 139, 5]
    [31, 139, 5] [5] GenerateMap none rfl (by decide) (by decide) (by decide)
    (by decide) (Or.inl ⟨rfl, rfl⟩)

/-- C1 fails on the code: the error returned by `gzip.NewReader` is
discarded, so a datagram whose body does not begin with the gzip magic
leaves a nil reader, and the unconditional `io.Copy` dereferences it — the
iteration panics, killing the receive goroutine (and the process): the
second datagram of the trace is never processed, so a corrupt frame is not
logged-and-dropped and the loop does not continue. -/
theorem c1_corrupt_frame_crashes_loop :
    (serverListenerRun gzipSpec juW jmW true lNil (List.replicate 4096 0)
      [ReadResult.ok [1, 5, 5], ReadResult.ok [1, 5, 5]]).2 = true ∧
    ((serverListenerRun gzipSpec juW jmW true lNil (List.replicate 4096 0)
      [ReadResult.ok [1, 5, 5], ReadResult.ok [1, 5, 5]]).1).length = 1 :=
  ⟨rfl, rfl⟩

/-- C10: on every successful read, the decode stage consumes the entire
4096-byte buffer, not only the n bytes of the datagram: the buffer is the
datagram followed by the leftover bytes of earlier iterations, all of its
bytes past the tag byte are handed to the decompressor, and every position
from n to 4095 still holds the previous buffer content. -/
theorem c10_buffer_reuse (g : GzipModel) (ju : Unmarshalers GMP MPP USP APP)
    (jm : PData GMP MPP USP APP PS → Option (List Nat)) (sockOk : Bool)
    (l : RemoteClientConnection GMP MPP USP APP PS)
    (buffer d : List Nat)
    (hb : buffer.length = 4096) (hd0 : 0 < d.length) (hdle : d.length ≤ 4096) :
    (serverListenerStep g ju jm sockOk l buffer (.ok d)).buffer =
      d ++ buffer.drop d.length ∧
    (serverListenerStep g ju jm sockOk l buffer (.ok d)).buffer.length = 4096 ∧
    (serverListenerStep g ju jm sockOk l buffer (.ok d)).decompressorInput =
      some ((d ++ buffer.drop d.length).drop 1) ∧
    (∀ i, d.length ≤ i → (d ++ buffer.drop d.length)[i]? = buffer[i]?) := by
  have hd0' : d ≠ [] := by
    intro h
    rw [h] at hd0
    exact absurd hd0 (by simp)
  have hdl : ¬ d.length = 0 := by simpa [List.length_eq_zero] using hd0'
  have hrb : readIntoBuffer buffer d = d ++ buffer.drop d.length := rfl
  have hne : readIntoBuffer buffer d ≠ [] := by
    rw [hrb]
    simp [hd0']
  have hbuf : (serverListenerStep g ju jm sockOk l buffer (.ok d)).buffer =
      readIntoBuffer buffer d := by
    unfold serverListenerStep
    dsimp only
    rw [if_neg hdl]
    rcases hcase : readIntoBuffer buffer d with _ | ⟨a, rest⟩
    · exact absurd hcase hne
    · simp only [hcase]
      rcases g.read rest with _ | ⟨data, ce⟩
      · rfl
      · by_cases hdt : data.length = 0
        · simp [hdt]
        · simp [hdt, dispatchPacket_buffer]
  have hdin : (serverListenerStep g ju jm sockOk l buffer (.ok d)).decompressorInput =
      some ((readIntoBuffer buffer d).drop 1) := by
    unfold serverListenerStep
    dsimp only
    rw [if_neg hdl]
    rcases hcase : readIntoBuffer buffer d with _ | ⟨a, rest⟩
    · exact absurd hcase hne
    · simp only [hcase]
      rcases g.read rest with _ | ⟨data, ce⟩
      · rfl
      · by_cases hdt : data.length = 0
        · simp [hdt]
        · simp [hdt, dispatchPacket_decompressorInput]
  refine ⟨by rw [hbuf, hrb], ?_, by rw [hdin, hrb], ?_⟩
  · rw [hbuf, hrb]
    simp only [List.length_append, List.length_drop, hb]
    omega
  · intro i hi
    rw [List.getElem?_append_right hi, List.getElem?_drop]
    congr 1
    omega

/-- C10 witness: a three-byte datagram into a buffer full of sevens leaves
the old bytes from position 3 on in the decoded buffer. -/
theorem c10_witness :
    (serverListenerStep gzipSpec juW jmW true lNil (List.replicate 4096 7)
        (.ok [1, 2, 3])).buffer = [1, 2, 3] ++ (List.replicate 4096 7).drop 3 ∧
    ([1, 2, 3] ++ (List.replicate 4096 7).drop 3)[100]? =
      (List.replicate 4096 7)[100]? := by
  have h := c10_buffer_reuse gzipSpec juW jmW true lNil (List.replicate 4096 7)
    [1, 2, 3] (by rw [List.length_replicate]) (by decide) (by decide)
  exact ⟨h.1, h.2.2.2 100 (by decide)⟩

end D2RemoteClient
